import Mathlib

/-!
Shallow embedding of the wallet-API core of this repository
(`backend/wallet_api/{main,actions,database}.py` and the room-creation saga
of `backend/modal_app.py`).

Modelling conventions:
* Remote collaborators (the CDP wallet service, ElizaOS, the text-generation
  call) are environments: a record of `Except`-valued outcomes, one field per
  call site.  Each handler additionally returns the list of operations it
  submitted to / awaited from the wallet service, in order.
* The datastore (Supabase) is a pure state: lists of rows.  Datastore
  reads/writes are modelled as always succeeding; persistence failures are an
  external failure mode none of the verified properties quantify over.
* Python `HTTPException(status_code, detail)` becomes `HTTPErr`; a handler or
  endpoint that can raise returns `Except HTTPErr α`.
* JSON dicts of request parameters are modelled as a record of the keys the
  handlers actually read (`to_address`, `amount`, `from_token`, `to_token`,
  `slippage_bps`), each optional, mirroring `params.get(...)`.
* Python truthiness tests on optional strings (`if not x:`) are `pyTruthy`.
-/

namespace WalletApi

/-- Python `HTTPException`: a status code and a human-readable detail. -/
structure HTTPErr where
  status_code : Nat
  detail : String
deriving DecidableEq, Repr

/-- Truthiness of an optional string, as Python sees it: `None` and `""` are
falsy, every other string is truthy. -/
def pyTruthy : Option String → Bool
  | none => false
  | some s => !(s == "")

/-- Python `str.strip()`: leading and trailing whitespace removed (defined
structurally over the character list so that concrete instances evaluate). -/
def pyStrip (s : String) : String :=
  ⟨((s.data.dropWhile Char.isWhitespace).reverse.dropWhile Char.isWhitespace).reverse⟩

/-- Python `a or b` on two optional strings: `b` when `a` is falsy. -/
def pyOr (a b : Option String) : Option String :=
  if pyTruthy a then a else b

/-- ASCII lowering, modelling Python `str.lower()` on the ASCII identifiers
used here (defined over the character list so that concrete instances
evaluate). -/
def strLower (s : String) : String := ⟨s.data.map Char.toLower⟩

/-- ASCII uppercasing, modelling Python `str.upper()` on token symbols. -/
def strUpper (s : String) : String := ⟨s.data.map Char.toUpper⟩

/-- Numeric value of a digit list (non-digits contribute nothing; only called
on all-digit lists). -/
def digitsNat (l : List Char) : Nat :=
  l.foldl (fun a c => if c == '_' then a else a * 10 + (c.toNat - 48)) 0

/-- No two adjacent underscores in the character list. -/
def noDoubledUnderscore : List Char → Bool
  | '_' :: '_' :: _ => false
  | _ :: rest => noDoubledUnderscore rest
  | [] => true

/-- Digit run as accepted by Python `int(str)` after the optional sign:
non-empty, decimal digits with underscores allowed strictly between digits
(not leading, not trailing, not doubled). -/
def pyIntDigits (l : List Char) : Bool :=
  !l.isEmpty &&
  l.all (fun c => c.isDigit || c == '_') &&
  !(l.head? == some '_') &&
  !(l.getLast? == some '_') &&
  noDoubledUnderscore l

/-- Python `int(s)` for a decimal string: surrounding whitespace stripped,
optional sign, then digits (with internal underscores).  Returns `none` where
Python raises `ValueError` — in particular on any string containing a decimal
point. -/
def pythonInt (s : String) : Option Int :=
  match (pyStrip s).data with
  | '+' :: r => if pyIntDigits r then some (digitsNat r) else none
  | '-' :: r => if pyIntDigits r then some (-(digitsNat r : Int)) else none
  | r => if pyIntDigits r then some (digitsNat r) else none

/-- Message of the `ValueError` Python's `int()` raises on a bad literal
(Python additionally wraps the offending literal in quotes). -/
def pyIntErrMsg (s : String) : String :=
  "invalid literal for int() with base 10: " ++ s

/-- `Web3.to_wei(Decimal(s), "ether")` for plain decimal strings of the form
`[sign] digits [. digits]` with at most 18 fractional digits: the amount in
wei.  Returns `none` where `Decimal` raises `InvalidOperation` or `to_wei`
rejects sub-wei precision; scientific notation and special values are outside
the modelled domain (no claim touches them). -/
def toWeiEther (s : String) : Option Int :=
  let t := pyStrip s
  let core : List Char → Option Int := fun l =>
    if l.count '.' > 1 then none
    else
      let ip := l.takeWhile (fun c => !(c == '.'))
      let fp := (l.dropWhile (fun c => !(c == '.'))).tail
      if ip.all Char.isDigit && fp.all Char.isDigit &&
         (ip.length + fp.length > 0) && fp.length ≤ 18 then
        some ((digitsNat ip) * 10 ^ 18 + (digitsNat fp) * 10 ^ (18 - fp.length))
      else none
  match t.data with
  | '+' :: r => core r
  | '-' :: r => (core r).map (fun v => -v)
  | r => core r

/-- Message of the `decimal.InvalidOperation` raised by `Decimal` on a bad
literal (class name only; Python wraps it in brackets). -/
def decimalErrMsg : String := "decimal.ConversionSyntax"

/-! ## Data model (database rows and request/response shapes) -/

/-- One row of the `agent_wallets` table.  Column values are `Option` to model
SQL NULL; a NULL column value and a missing dict key are conflated, so
`wallet.get(k, d)` becomes `getD d` (no claim distinguishes the two). -/
structure WalletRow where
  room_id : String
  owner_account_name : Option String
  account_name : Option String
  address : Option String
  smart_account_address : Option String
  network : Option String
deriving DecidableEq, Repr

/-- Request parameters of a dynamic action (`DynamicActionRequest.params`),
restricted to the keys the handlers read. -/
structure ActionParams where
  to_address : Option String := none
  amount : Option String := none
  from_token : Option String := none
  to_token : Option String := none
  slippage_bps : Option Int := none
deriving DecidableEq, Repr

/-- Result payload returned by an action handler (the dict each `handle_*`
returns). -/
inductive ActionResult where
  | balanceRes (address : Option String) (account_name : Option String)
      (room_id : String) (network : String)
  | transferRes (user_op_hash : String) (transaction_hash : Option String)
      (status : String) (block_explorer : Option String)
  | swapRes (user_op_hash : String) (transaction_hash : Option String)
      (status : String) (from_token to_token from_amount : String)
      (to_amount : Option String) (block_explorer : Option String)
deriving DecidableEq, Repr

/-- One row of the `wallet_transactions` table. -/
structure TxRecord where
  id : Nat
  room_id : String
  action : String
  params : ActionParams
  status : String
  result : Option ActionResult := none
  error : Option String := none
deriving DecidableEq, Repr

/-- The datastore: wallet rows, transaction rows (newest first, mirroring the
`created_at desc` ordering every query uses), and the id the next inserted
transaction row receives (Supabase generates UUIDs; a counter keeps generated
ids distinct). -/
structure DB where
  wallets : List WalletRow := []
  transactions : List TxRecord := []
  nextTxId : Nat := 0
deriving DecidableEq, Repr

/-- `database.get_wallet`: first `agent_wallets` row with the given
`room_id`, if any. -/
def get_wallet (db : DB) (room_id : String) : Option WalletRow :=
  db.wallets.find? (fun w => w.room_id == room_id)

/-- `database.create_wallet`: insert an `agent_wallets` row.  The source
stores `owner_account_name` in both the new and the legacy name column and
the owner address in the legacy `address` column. -/
def create_wallet (db : DB) (room_id owner_account_name owner_address
    smart_account_address network : String) : DB :=
  { db with wallets := db.wallets ++
      [{ room_id := room_id
         owner_account_name := some owner_account_name
         account_name := some owner_account_name
         address := some owner_address
         smart_account_address := some smart_account_address
         network := some network }] }

/-- `database.log_transaction` with status `"pending"`: insert a
`wallet_transactions` row and return it. -/
def log_transaction (db : DB) (room_id action : String) (params : ActionParams) :
    DB × TxRecord :=
  let row : TxRecord :=
    { id := db.nextTxId, room_id := room_id, action := action
      params := params, status := "pending" }
  ({ db with transactions := row :: db.transactions, nextTxId := db.nextTxId + 1 },
   row)

/-- Per-row effect of `database.update_transaction`: status always set,
result and error only when provided (the source adds them to the update dict
only when not `None`). -/
def updTxRow (tid : Nat) (st : String) (res : Option ActionResult)
    (err : Option String) (r : TxRecord) : TxRecord :=
  if r.id == tid then
    { r with status := st
             result := if res.isSome then res else r.result
             error := if err.isSome then err else r.error }
  else r

/-- `database.update_transaction`: update every `wallet_transactions` row
whose id matches (ids are unique in practice; the update is by equality
filter). -/
def update_transaction (db : DB) (tid : Nat) (st : String)
    (res : Option ActionResult) (err : Option String) : DB :=
  { db with transactions := db.transactions.map (updTxRow tid st res err) }

/-! ## Wallet-service environment (`actions.py` collaborators)

One field per remote call site of a single handler invocation; each site is
consulted at most once per invocation.  `Except String α` models the Python
call either returning a value or raising (with `str(e)` as the message). -/

/-- A submitted user operation (`send_user_operation` return value). -/
structure UserOp where
  user_op_hash : String
  status : String
deriving DecidableEq, Repr

/-- A confirmation receipt (`wait_for_user_operation` return value). -/
structure OpReceipt where
  status : String
  transaction_hash : Option String
deriving DecidableEq, Repr

/-- `smart_account.swap(...)` return value. -/
structure SwapSubmit where
  user_op_hash : String
  to_amount : Option String
deriving DecidableEq, Repr

/-- A CDP smart-account handle (only its address is read). -/
structure SmartAccount where
  address : String
deriving DecidableEq, Repr

/-- Outcomes of the CDP wallet-service calls one handler invocation makes. -/
structure CdpEnv where
  get_or_create_account : Except String Unit
  get_or_create_smart_account : Except String SmartAccount
  send_user_operation : Except String UserOp
  wait_for_user_operation : Except String OpReceipt
  smart_swap : Except String SwapSubmit
  smart_wait : Except String OpReceipt

/-- An operation submitted to or awaited from the wallet service, recorded in
order of invocation. -/
inductive RemoteCall where
  | transferOp (to_addr : String) (value : Int)
  | approvalOp (token spender : String) (allowance : Int)
  | swapOp (from_token to_token from_amount : String) (slippage_bps : Int)
  | waitOp (user_op_hash : String)
deriving DecidableEq, Repr

/-! ## `actions.py` -/

/-- `TOKEN_ADDRESSES`: the static Base-mainnet symbol → contract-address
table. -/
def TOKEN_ADDRESSES : List (String × String) :=
  [("ETH", "0x0000000000000000000000000000000000000000"),
   ("WETH", "0x4200000000000000000000000000000000000006"),
   ("USDC", "0x833589fCD6eDb6E08f4c7C32D4f71b54bdA02913"),
   ("DAI", "0x50c5725949A6F0c72E6C4a641F24049A917DB0Cb"),
   ("USDT", "0xfde4C96c8593536E31F229EA8f37b2ADa2699bb2")]

/-- `resolve_token_address`: identifiers starting with `0x` pass through
unchanged; otherwise the uppercased symbol is looked up in
`TOKEN_ADDRESSES`, and an unknown symbol raises 400. -/
def resolve_token_address (token : String) : Except HTTPErr String :=
  if List.isPrefixOf "0x".data token.data then .ok token
  else
    match TOKEN_ADDRESSES.lookup (strUpper token) with
    | some addr => .ok addr
    | none => .error
        { status_code := 400
          detail := "Unknown token: " ++ token ++ ". Supported tokens: " ++
            String.intercalate ", " (TOKEN_ADDRESSES.map Prod.fst) }

/-- The fixed Permit2 allowance contract (`permit2_address`; the source passes
it through `Web3.to_checksum_address`, the identity on this already
checksummed literal). -/
def permit2_address : String := "0x000000000022D473030F116dDEE9F6B43aC78BA3"

/-- The raw identifiers for which `handle_swap` skips the approval step:
`from_token.lower() in [zero-address, "eth"]`. -/
def nativeTokenSentinels : List String :=
  ["0x0000000000000000000000000000000000000000", "eth"]

/-- `handle_balance`: returns the smart-account address (falling back to the
legacy `address` column via the truthiness test `if not smart_account_address`)
together with the owner account name and network. -/
def handle_balance (db : DB) (room_id : String) (_params : ActionParams)
    (_env : CdpEnv) : List RemoteCall × Except HTTPErr ActionResult :=
  match get_wallet db room_id with
  | none => ([], .error ⟨404, "Wallet not found for room_id: " ++ room_id⟩)
  | some w =>
    let smart0 := w.smart_account_address
    let ownerName := pyOr w.owner_account_name w.account_name
    let smart := if pyTruthy smart0 then smart0 else w.address
    ([], .ok (.balanceRes smart ownerName room_id (w.network.getD "base")))

/-- `handle_transfer`: validate params, resolve wallet and accounts, submit a
gas-sponsored value transfer, await confirmation; confirmation failure yields
a partial result instead of an error.  `Web3.to_wei(Decimal(amount), "ether")`
is evaluated as an argument of the `send_user_operation` call, inside that
call's `try`, so a parse failure surfaces as the send-step 500 with no
operation submitted. -/
def handle_transfer (db : DB) (room_id : String) (params : ActionParams)
    (env : CdpEnv) : List RemoteCall × Except HTTPErr ActionResult :=
  if !(pyTruthy params.to_address) then
    ([], .error ⟨400, "Missing required parameter: to_address"⟩)
  else if !(pyTruthy params.amount) then
    ([], .error ⟨400, "Missing required parameter: amount"⟩)
  else
    let to_address := params.to_address.getD ""
    let amount := params.amount.getD ""
    match get_wallet db room_id with
    | none => ([], .error ⟨404, "Wallet not found for room_id: " ++ room_id⟩)
    | some w =>
      if !(pyTruthy (pyOr w.owner_account_name w.account_name)) then
        ([], .error ⟨500, "Wallet missing owner account name"⟩)
      else
        match env.get_or_create_account with
        | .error e => ([], .error ⟨500, "Failed to retrieve owner account: " ++ e⟩)
        | .ok _ =>
        match env.get_or_create_smart_account with
        | .error e => ([], .error ⟨500, "Failed to retrieve smart account: " ++ e⟩)
        | .ok _sa =>
        match toWeiEther amount with
        | none => ([], .error ⟨500, "Failed to send user operation: " ++ decimalErrMsg⟩)
        | some v =>
          let tr1 := [RemoteCall.transferOp to_address v]
          match env.send_user_operation with
          | .error e => (tr1, .error ⟨500, "Failed to send user operation: " ++ e⟩)
          | .ok uo =>
            let tr2 := tr1 ++ [RemoteCall.waitOp uo.user_op_hash]
            match env.wait_for_user_operation with
            | .error _ =>
              (tr2, .ok (.transferRes uo.user_op_hash none uo.status none))
            | .ok conf =>
              let txh := if conf.status == "complete" then conf.transaction_hash
                         else none
              (tr2, .ok (.transferRes uo.user_op_hash txh conf.status
                (txh.map (fun h => "https://basescan.org/tx/" ++ h))))

/-- Step 2 of `handle_swap`: submit the swap via the smart account's trade
method and await confirmation, with the same partial-result-on-timeout policy
as transfer (the partial status is the literal `"pending"`). -/
def swap_step (from_token to_token amount : String) (slippage_bps : Int)
    (tr0 : List RemoteCall) (env : CdpEnv) :
    List RemoteCall × Except HTTPErr ActionResult :=
  let tr1 := tr0 ++ [RemoteCall.swapOp from_token to_token amount slippage_bps]
  match env.smart_swap with
  | .error e => (tr1, .error ⟨500, "Failed to execute swap: " ++ e⟩)
  | .ok ss =>
    let tr2 := tr1 ++ [RemoteCall.waitOp ss.user_op_hash]
    match env.smart_wait with
    | .error _ =>
      (tr2, .ok (.swapRes ss.user_op_hash none "pending" from_token to_token
        amount ss.to_amount none))
    | .ok rc =>
      let txh := if rc.status == "complete" then rc.transaction_hash else none
      (tr2, .ok (.swapRes ss.user_op_hash txh rc.status from_token to_token
        amount ss.to_amount (txh.map (fun h => "https://basescan.org/tx/" ++ h))))

/-- `handle_swap`: validate params, resolve token identifiers (the resolved
addresses `_from_token_address`/`_to_token_address` are computed and then,
as in the source, never used again — every submitted operation carries the
raw identifiers), resolve wallet and accounts, then unless the raw sell
token lowercases to a native-asset sentinel submit and await an ERC20
approval of `int(amount) * 10` for Permit2 (the `int(amount)` parse happens
inside the approval `try`, before the send), and finally run `swap_step`. -/
def handle_swap (db : DB) (room_id : String) (params : ActionParams)
    (env : CdpEnv) : List RemoteCall × Except HTTPErr ActionResult :=
  if !(pyTruthy params.from_token) then
    ([], .error ⟨400, "Missing required parameter: from_token"⟩)
  else if !(pyTruthy params.to_token) then
    ([], .error ⟨400, "Missing required parameter: to_token"⟩)
  else if !(pyTruthy params.amount) then
    ([], .error ⟨400, "Missing required parameter: amount"⟩)
  else
    let from_token := params.from_token.getD ""
    let to_token := params.to_token.getD ""
    let amount := params.amount.getD ""
    let slippage_bps := params.slippage_bps.getD 100
    match resolve_token_address from_token with
    | .error e => ([], .error e)
    | .ok _from_token_address =>
    match resolve_token_address to_token with
    | .error e => ([], .error e)
    | .ok _to_token_address =>
    match get_wallet db room_id with
    | none => ([], .error ⟨404, "Wallet not found for room_id: " ++ room_id⟩)
    | some w =>
      if !(pyTruthy (pyOr w.owner_account_name w.account_name)) then
        ([], .error ⟨500, "Wallet missing owner account name"⟩)
      else
        match env.get_or_create_account with
        | .error e => ([], .error ⟨500, "Failed to retrieve owner account: " ++ e⟩)
        | .ok _ =>
        match env.get_or_create_smart_account with
        | .error e => ([], .error ⟨500, "Failed to retrieve smart account: " ++ e⟩)
        | .ok _sa =>
          if strLower from_token ∈ nativeTokenSentinels then
            swap_step from_token to_token amount slippage_bps [] env
          else
            match pythonInt amount with
            | none =>
              ([], .error ⟨500, "Failed to approve Permit2: " ++ pyIntErrMsg amount⟩)
            | some a =>
              let tr1 := [RemoteCall.approvalOp from_token permit2_address (a * 10)]
              match env.send_user_operation with
              | .error e => (tr1, .error ⟨500, "Failed to approve Permit2: " ++ e⟩)
              | .ok apOp =>
                let tr2 := tr1 ++ [RemoteCall.waitOp apOp.user_op_hash]
                match env.wait_for_user_operation with
                | .error e => (tr2, .error ⟨500, "Failed to approve Permit2: " ++ e⟩)
                | .ok _ => swap_step from_token to_token amount slippage_bps tr2 env

/-- `get_supported_actions().keys()`: the action registry's names. -/
def supported_actions : List String := ["balance", "transfer", "swap"]

/-- Detail string of the 400 raised on an unknown action name. -/
def invalidActionDetail (action : String) : String :=
  "Invalid action: " ++ action ++ ". Supported actions: " ++
    String.intercalate ", " supported_actions

/-- `execute_action`: registry-membership check, then dispatch to the
handler registered for the action. -/
def execute_action (db : DB) (room_id action : String) (params : ActionParams)
    (env : CdpEnv) : List RemoteCall × Except HTTPErr ActionResult :=
  if action ∉ supported_actions then
    ([], .error ⟨400, invalidActionDetail action⟩)
  else if action == "balance" then handle_balance db room_id params env
  else if action == "transfer" then handle_transfer db room_id params env
  else handle_swap db room_id params env

/-! ## `main.py` endpoints -/

/-- Ledger/handler events of one dispatch invocation, in temporal order. -/
inductive Event where
  | ledgerAppend (id : Nat) (status : String)
  | handlerStart
  | remote (c : RemoteCall)
  | ledgerUpdate (id : Nat) (status : String)
deriving DecidableEq, Repr

/-- The success body of `POST /wallets/{room_id}/{action}`
(`DynamicActionResponse`). -/
structure DynamicActionResponse where
  success : Bool
  action : String
  room_id : String
  transaction_id : Nat
  result : Option ActionResult
  error : Option String
deriving DecidableEq, Repr

/-- `dynamic_action_endpoint`: validate the action name against the registry,
check the wallet exists (both before any ledger write), insert a pending
transaction row, run the handler, and finalize the row as success (storing
the result) or failed (storing the error detail), re-raising handler errors.
The handlers' own catch-alls convert every failure to `HTTPException`, so the
endpoint's `except Exception` wrapper (reachable only through datastore
failures, which the model treats as absent) has no counterpart here.
Returns the new datastore, the event trace, and the response or raised
error. -/
def dynamic_action_endpoint (db : DB) (room_id action : String)
    (params : ActionParams) (env : CdpEnv) :
    DB × List Event × Except HTTPErr DynamicActionResponse :=
  if action ∉ supported_actions then
    (db, [], .error ⟨400, invalidActionDetail action⟩)
  else
    match get_wallet db room_id with
    | none => (db, [], .error ⟨404, "Wallet not found for room_id: " ++ room_id⟩)
    | some _ =>
      let (db1, row) := log_transaction db room_id action params
      let tid := row.id
      let (tr, res) := execute_action db1 room_id action params env
      let evs := Event.ledgerAppend tid "pending" :: Event.handlerStart ::
        tr.map Event.remote
      match res with
      | .ok r =>
        let db2 := update_transaction db1 tid "success" (some r) none
        (db2, evs ++ [Event.ledgerUpdate tid "success"],
         .ok { success := true, action := action, room_id := room_id
               transaction_id := tid, result := some r, error := none })
      | .error e =>
        let db2 := update_transaction db1 tid "failed" none (some e.detail)
        (db2, evs ++ [Event.ledgerUpdate tid "failed"], .error e)

/-- Outcomes of the two CDP calls `create_wallet_endpoint` makes (owner EOA
and smart account, each returning its address). -/
structure ProvisionEnv where
  get_or_create_account : Except String String
  get_or_create_smart_account : Except String String

/-- The success body of `POST /wallets` (`WalletResponse`). -/
structure WalletResponse where
  room_id : String
  owner_account_name : String
  owner_address : String
  smart_account_address : String
  network : String
deriving DecidableEq, Repr

/-- `create_wallet_endpoint`: strip the room id, 409 if a wallet row already
exists, create owner and smart accounts (each failure a 500 with nothing
persisted), then persist the wallet row.  The owner account name is the room
id itself. -/
def create_wallet_endpoint (db : DB) (env : ProvisionEnv) (room_id_raw : String) :
    DB × Except HTTPErr WalletResponse :=
  let room_id := pyStrip room_id_raw
  if (get_wallet db room_id).isSome then
    (db, .error ⟨409, "Wallet already exists for room_id: " ++ room_id⟩)
  else
    let owner_account_name := room_id
    match env.get_or_create_account with
    | .error e => (db, .error ⟨500, "Failed to create owner account: " ++ e⟩)
    | .ok owner_address =>
      match env.get_or_create_smart_account with
      | .error e => (db, .error ⟨500, "Failed to create smart account: " ++ e⟩)
      | .ok smart_account_address =>
        let db1 := create_wallet db room_id owner_account_name owner_address
          smart_account_address "base"
        (db1, .ok { room_id := room_id, owner_account_name := owner_account_name
                    owner_address := owner_address
                    smart_account_address := smart_account_address
                    network := "base" })

/-- Rows of `wallet_transactions` matching a history query's filters, newest
first (the query built by `database.get_transactions` before pagination). -/
def tx_matching (db : DB) (room_id : String) (statusF : Option String) :
    List TxRecord :=
  let q := db.transactions.filter (fun t => t.room_id == room_id)
  if pyTruthy statusF then q.filter (fun t => t.status == statusF.getD "") else q

/-- `database.get_transactions`: the matching rows, paginated with
`range(offset, offset + limit - 1)` (inclusive, i.e. `limit` rows starting at
`offset`). -/
def get_transactions (db : DB) (room_id : String) (limit offset : Nat)
    (statusF : Option String) : List TxRecord :=
  ((tx_matching db room_id statusF).drop offset).take limit

/-- The success body of `GET /wallets/{room_id}/transactions`
(`TransactionHistoryResponse`). -/
structure TransactionHistoryResponse where
  room_id : String
  transactions : List TxRecord
  total : Nat
  limit : Nat
  offset : Nat
deriving DecidableEq, Repr

/-- `transaction_history_endpoint`: 404 without a wallet row; a limit above
100 is silently clamped to 100; the reported total is the length of a
re-query with limit 10000 and offset 0. -/
def transaction_history_endpoint (db : DB) (room_id : String)
    (limit offset : Nat) (statusF : Option String) :
    Except HTTPErr TransactionHistoryResponse :=
  match get_wallet db room_id with
  | none => .error ⟨404, "Wallet not found for room_id: " ++ room_id⟩
  | some _ =>
    let limit := if limit > 100 then 100 else limit
    let txs := get_transactions db room_id limit offset statusF
    let total := (get_transactions db room_id 10000 0 statusF).length
    .ok { room_id := room_id, transactions := txs, total := total
          limit := limit, offset := offset }

/-! ## `modal_app.py` room-creation saga -/

/-- Outcomes of the external calls one `create_room` run makes.  The
remote-response id extraction (`data.get("id") or ...`) is folded into the
call outcome: a response without a usable id is an `.error`. -/
structure SagaEnv where
  generate_strategy : Except String String
  wallet_create : Except String (Option String × Option String)
  eliza_create_agent : Except String String
  eliza_start_agent : Except String Unit
  eliza_create_room : Except String String
  insert_room : Except String Unit
  insert_agent : Except String Unit

/-- Side effects a `create_room` run has produced, in order.  An event is
recorded when the corresponding remote resource was created / row inserted
(i.e. on call success). -/
inductive SagaEvent where
  | walletProvisioned (room_id : String)
  | agentCreated (agent_id : String)
  | agentStarted (agent_id : String)
  | roomLinked (eliza_room_id : String)
  | roomRowInserted (room_id : String)
  | agentRowInserted
deriving DecidableEq, Repr

/-- The room payload `create_room` returns on success (the identifiers the
claims inspect). -/
structure RoomResponse where
  id : String
  eliza_room_id : String
  strategy_agent_id : String
  wallet_address : Option String
  smart_account_address : Option String
  generated_strategy : String
  status : String
deriving DecidableEq, Repr

/-- `create_room` (the Orchestration Saga), with the freshly generated UUID
passed in as `room_id`: generate strategy → create wallet → create strategy
agent → start it (best-effort) → create the ElizaOS room → insert the room
row → insert the agent row (best-effort).  Each fatal failure aborts with a
500 wrapping the step's message; completed side effects are not compensated. -/
def create_room (env : SagaEnv) (room_id : String) :
    List SagaEvent × Except HTTPErr RoomResponse :=
  match env.generate_strategy with
  | .error e => ([], .error ⟨500, "Failed to generate AI strategy: " ++ e⟩)
  | .ok generated_strategy =>
    match env.wallet_create with
    | .error e => ([], .error ⟨500, "Failed to create wallet: " ++ e⟩)
    | .ok (wallet_address, smart_account_address) =>
      let ev1 := [SagaEvent.walletProvisioned room_id]
      match env.eliza_create_agent with
      | .error e => (ev1, .error ⟨500, "Failed to create strategy agent: " ++ e⟩)
      | .ok agent_id =>
        let ev2 := ev1 ++ [SagaEvent.agentCreated agent_id]
        let ev3 := ev2 ++ (match env.eliza_start_agent with
          | .ok _ => [SagaEvent.agentStarted agent_id]
          | .error _ => [])
        match env.eliza_create_room with
        | .error e => (ev3, .error ⟨500, "Failed to create ElizaOS room: " ++ e⟩)
        | .ok eliza_room_id =>
          let ev4 := ev3 ++ [SagaEvent.roomLinked eliza_room_id]
          match env.insert_room with
          | .error e =>
            (ev4, .error ⟨500, "Failed to store room in database: " ++ e⟩)
          | .ok _ =>
            let ev5 := ev4 ++ [SagaEvent.roomRowInserted room_id]
            let ev6 := ev5 ++ (match env.insert_agent with
              | .ok _ => [SagaEvent.agentRowInserted]
              | .error _ => [])
            (ev6, .ok { id := room_id, eliza_room_id := eliza_room_id
                        strategy_agent_id := agent_id
                        wallet_address := wallet_address
                        smart_account_address := smart_account_address
                        generated_strategy := generated_strategy
                        status := "active" })

/-! ## Helper lemmas -/

/-- A transaction update by id leaves every row with a different id
unchanged. -/
theorem map_updTxRow_of_ne (tid : Nat) (st : String) (res : Option ActionResult)
    (err : Option String) :
    ∀ l : List TxRecord, (∀ r ∈ l, r.id ≠ tid) →
      l.map (updTxRow tid st res err) = l := by
  intro l h
  induction l with
  | nil => rfl
  | cons a t ih =>
    have ha : a.id ≠ tid := h a (by simp)
    have ht : ∀ r ∈ t, r.id ≠ tid := fun r hr => h r (by simp [hr])
    simp [updTxRow, ha, ih ht]

/-- Dispatch after successful validation, handler returning: the pending row
is finalized `success` with the result stored, and the response carries the
result. -/
theorem dispatch_success_eq
    (db : DB) (room_id action : String) (params : ActionParams) (env : CdpEnv)
    (w : WalletRow) (tr : List RemoteCall) (r : ActionResult)
    (hact : action ∈ supported_actions)
    (hw : get_wallet db room_id = some w)
    (hx : execute_action (log_transaction db room_id action params).1
        room_id action params env = (tr, .ok r)) :
    dynamic_action_endpoint db room_id action params env =
      (update_transaction (log_transaction db room_id action params).1
         db.nextTxId "success" (some r) none,
       Event.ledgerAppend db.nextTxId "pending" :: Event.handlerStart ::
         (tr.map Event.remote ++ [Event.ledgerUpdate db.nextTxId "success"]),
       .ok { success := true, action := action, room_id := room_id
             transaction_id := db.nextTxId, result := some r, error := none }) := by
  unfold dynamic_action_endpoint
  rw [if_neg (not_not_intro hact), hw]
  simp only [log_transaction] at hx ⊢
  rw [hx]
  rfl

/-- Dispatch after successful validation, handler raising: the pending row is
finalized `failed` with the error detail stored, and the handler's error is
re-raised unchanged. -/
theorem dispatch_failure_eq
    (db : DB) (room_id action : String) (params : ActionParams) (env : CdpEnv)
    (w : WalletRow) (tr : List RemoteCall) (e : HTTPErr)
    (hact : action ∈ supported_actions)
    (hw : get_wallet db room_id = some w)
    (hx : execute_action (log_transaction db room_id action params).1
        room_id action params env = (tr, .error e)) :
    dynamic_action_endpoint db room_id action params env =
      (update_transaction (log_transaction db room_id action params).1
         db.nextTxId "failed" none (some e.detail),
       Event.ledgerAppend db.nextTxId "pending" :: Event.handlerStart ::
         (tr.map Event.remote ++ [Event.ledgerUpdate db.nextTxId "failed"]),
       .error e) := by
  unfold dynamic_action_endpoint
  rw [if_neg (not_not_intro hact), hw]
  simp only [log_transaction] at hx ⊢
  rw [hx]
  rfl

/-- The finalizing update of a freshly appended row: the new row is updated,
all pre-existing rows (whose ids differ from the fresh id) are unchanged. -/
theorem update_after_log_transactions
    (db : DB) (room_id action : String) (params : ActionParams)
    (st : String) (res : Option ActionResult) (err : Option String)
    (hfresh : ∀ r ∈ db.transactions, r.id ≠ db.nextTxId) :
    (update_transaction (log_transaction db room_id action params).1
        db.nextTxId st res err).transactions =
      { id := db.nextTxId, room_id := room_id, action := action
        params := params, status := st
        result := if res.isSome then res else none
        error := if err.isSome then err else none } :: db.transactions := by
  simp [update_transaction, log_transaction, updTxRow,
    map_updTxRow_of_ne _ _ _ _ db.transactions hfresh]

/-- `handle_transfer` when the wallet service accepts the submission but the
confirmation wait raises: the handler returns the partial result (operation
hash present, transaction hash null, the submission-reported status). -/
theorem handle_transfer_confirm_failure_eq
    (db : DB) (room_id : String) (params : ActionParams) (env : CdpEnv)
    (w : WalletRow) (ta am : String) (uo : UserOp) (v : Int)
    (hta : params.to_address = some ta) (hta2 : ta ≠ "")
    (ham : params.amount = some am) (ham2 : am ≠ "")
    (hw : get_wallet db room_id = some w)
    (howner : pyTruthy (pyOr w.owner_account_name w.account_name) = true)
    (hacc : env.get_or_create_account = .ok ())
    (hsa : ∃ sa, env.get_or_create_smart_account = .ok sa)
    (hwei : toWeiEther am = some v)
    (hsend : env.send_user_operation = .ok uo)
    (hwait : ∃ m, env.wait_for_user_operation = .error m) :
    handle_transfer db room_id params env =
      ([RemoteCall.transferOp ta v, RemoteCall.waitOp uo.user_op_hash],
       .ok (.transferRes uo.user_op_hash none uo.status none)) := by
  obtain ⟨sa, hsa⟩ := hsa
  obtain ⟨m, hwait⟩ := hwait
  have hta3 : pyTruthy (some ta) = true := by simp [pyTruthy, hta2]
  have ham3 : pyTruthy (some am) = true := by simp [pyTruthy, ham2]
  unfold handle_transfer
  rw [hta, ham]
  simp [hta3, ham3, hw, howner, hacc, hsa, hwei, hsend, hwait]

/-- `swap_step` when the swap submission is accepted but the confirmation
wait raises: the swap operation and its wait are appended to the trace and
the partial result (status `"pending"`, null transaction hash) is returned. -/
theorem swap_step_confirm_failure_eq
    (ft tt am : String) (slip : Int) (tr0 : List RemoteCall) (env : CdpEnv)
    (ss : SwapSubmit) (m : String)
    (hswap : env.smart_swap = .ok ss)
    (hwait : env.smart_wait = .error m) :
    swap_step ft tt am slip tr0 env =
      (tr0 ++ [RemoteCall.swapOp ft tt am slip,
               RemoteCall.waitOp ss.user_op_hash],
       .ok (.swapRes ss.user_op_hash none "pending" ft tt am ss.to_amount
         none)) := by
  unfold swap_step
  rw [hswap, hwait]
  simp

/-- `handle_swap` when validation and account resolution succeed, the
approval step either is skipped (native sell token) or succeeds, the swap
submission is accepted, and the swap confirmation wait raises: the handler
returns the partial result. -/
theorem handle_swap_confirm_failure_eq
    (db : DB) (room_id : String) (params : ActionParams) (env : CdpEnv)
    (w : WalletRow) (ft tt am : String) (ss : SwapSubmit)
    (hft : params.from_token = some ft) (hft2 : ft ≠ "")
    (htt : params.to_token = some tt) (htt2 : tt ≠ "")
    (ham : params.amount = some am) (ham2 : am ≠ "")
    (hrf : ∃ x, resolve_token_address ft = .ok x)
    (hrt : ∃ y, resolve_token_address tt = .ok y)
    (hw : get_wallet db room_id = some w)
    (howner : pyTruthy (pyOr w.owner_account_name w.account_name) = true)
    (hacc : env.get_or_create_account = .ok ())
    (hsa : ∃ sa, env.get_or_create_smart_account = .ok sa)
    (hap : strLower ft ∈ nativeTokenSentinels ∨
      (∃ a apOp rc, pythonInt am = some a ∧
        env.send_user_operation = .ok apOp ∧
        env.wait_for_user_operation = .ok rc))
    (hswap : env.smart_swap = .ok ss)
    (hwaits : ∃ m, env.smart_wait = .error m) :
    ∃ tr, handle_swap db room_id params env =
      (tr, .ok (.swapRes ss.user_op_hash none "pending" ft tt am ss.to_amount
        none)) := by
  obtain ⟨x, hrf⟩ := hrf
  obtain ⟨y, hrt⟩ := hrt
  obtain ⟨sa, hsa⟩ := hsa
  obtain ⟨m, hwaits⟩ := hwaits
  have hft3 : pyTruthy (some ft) = true := by simp [pyTruthy, hft2]
  have htt3 : pyTruthy (some tt) = true := by simp [pyTruthy, htt2]
  have ham3 : pyTruthy (some am) = true := by simp [pyTruthy, ham2]
  unfold handle_swap
  rw [hft, htt, ham]
  by_cases hn : strLower ft ∈ nativeTokenSentinels
  · refine ⟨[RemoteCall.swapOp ft tt am (params.slippage_bps.getD 100),
      RemoteCall.waitOp ss.user_op_hash], ?_⟩
    simp [hft3, htt3, ham3, hrf, hrt, hw, howner, hacc, hsa, hn,
      swap_step_confirm_failure_eq ft tt am _ [] env ss m hswap hwaits]
  · rcases hap with hnat | ⟨a, apOp, rc, hint, hsend, hwaitA⟩
    · exact absurd hnat hn
    · refine ⟨[RemoteCall.approvalOp ft permit2_address (a * 10),
        RemoteCall.waitOp apOp.user_op_hash,
        RemoteCall.swapOp ft tt am (params.slippage_bps.getD 100),
        RemoteCall.waitOp ss.user_op_hash], ?_⟩
      simp [hft3, htt3, ham3, hrf, hrt, hw, howner, hacc, hsa, hn,
        hint, hsend, hwaitA,
        swap_step_confirm_failure_eq ft tt am _ _ env ss m hswap hwaits]

/-- A non-whitespace character of a string survives `pyStrip`. -/
theorem mem_pyStrip_of_not_ws (s : String) (c : Char)
    (hc : c.isWhitespace = false) (h : c ∈ s.data) : c ∈ (pyStrip s).data := by
  have h1 : ∀ l : List Char, c ∈ l → c ∈ l.dropWhile Char.isWhitespace := by
    intro l hl
    induction l with
    | nil => simp at hl
    | cons a t ih =>
      by_cases ha : Char.isWhitespace a
      · rw [List.dropWhile_cons_of_pos ha]
        rcases List.mem_cons.mp hl with h2 | h2
        · rw [h2] at hc; rw [hc] at ha; cases ha
        · exact ih h2
      · rw [List.dropWhile_cons_of_neg (by simpa using ha)]
        exact hl
  show c ∈ ((((s.data.dropWhile Char.isWhitespace).reverse).dropWhile
    Char.isWhitespace).reverse)
  rw [List.mem_reverse]
  exact h1 _ (List.mem_reverse.mpr (h1 _ h))

/-- Python `int()` rejects any string containing a decimal point: a
fractional decimal string is never an integer literal. -/
theorem pythonInt_of_mem_dot (s : String) (h : '.' ∈ s.data) :
    pythonInt s = none := by
  have hd : '.' ∈ (pyStrip s).data :=
    mem_pyStrip_of_not_ws s '.' (by decide) h
  have hall : ∀ l : List Char, '.' ∈ l → pyIntDigits l = false := by
    intro l hl
    have h2 : l.all (fun c => c.isDigit || c == '_') = false := by
      rw [List.all_eq_false]
      exact ⟨'.', hl, by decide⟩
    simp [pyIntDigits, h2]
  unfold pythonInt
  split
  · rename_i r heq
    rw [heq] at hd
    rw [if_neg]
    simp [hall r (by simpa using hd)]
  · rename_i r heq
    rw [heq] at hd
    rw [if_neg]
    simp [hall r (by simpa using hd)]
  · rename_i r hne1 hne2
    rw [if_neg]
    simp [hall _ hd]

/-- `handle_swap` with a non-native sell token whose amount does not parse as
a Python integer: the `int(amount)` evaluation inside the approval `try`
raises, so the handler fails 500 at the approval step with no operation
submitted. -/
theorem handle_swap_int_parse_failure_eq
    (db : DB) (room_id : String) (params : ActionParams) (env : CdpEnv)
    (w : WalletRow) (ft tt am : String)
    (hft : params.from_token = some ft) (hft2 : ft ≠ "")
    (htt : params.to_token = some tt) (htt2 : tt ≠ "")
    (ham : params.amount = some am) (ham2 : am ≠ "")
    (hrf : ∃ x, resolve_token_address ft = .ok x)
    (hrt : ∃ y, resolve_token_address tt = .ok y)
    (hw : get_wallet db room_id = some w)
    (howner : pyTruthy (pyOr w.owner_account_name w.account_name) = true)
    (hacc : env.get_or_create_account = .ok ())
    (hsa : ∃ sa, env.get_or_create_smart_account = .ok sa)
    (hn : strLower ft ∉ nativeTokenSentinels)
    (hint : pythonInt am = none) :
    handle_swap db room_id params env =
      ([], .error ⟨500, "Failed to approve Permit2: " ++ pyIntErrMsg am⟩) := by
  obtain ⟨x, hrf⟩ := hrf
  obtain ⟨y, hrt⟩ := hrt
  obtain ⟨sa, hsa⟩ := hsa
  have hft3 : pyTruthy (some ft) = true := by simp [pyTruthy, hft2]
  have htt3 : pyTruthy (some tt) = true := by simp [pyTruthy, htt2]
  have ham3 : pyTruthy (some am) = true := by simp [pyTruthy, ham2]
  unfold handle_swap
  rw [hft, htt, ham]
  simp [hft3, htt3, ham3, hrf, hrt, hw, howner, hacc, hsa, hn, hint]

/-- A `swap_step` run started from an approval-free trace never records an
approval operation. -/
theorem swap_step_no_approval (ft tt am : String) (slip : Int) (env : CdpEnv)
    (t sp : String) (al : Int) :
    RemoteCall.approvalOp t sp al ∉ (swap_step ft tt am slip [] env).1 := by
  unfold swap_step
  cases hss : env.smart_swap with
  | error e => simp
  | ok ss =>
    cases hsw : env.smart_wait with
    | error m => simp
    | ok rc => simp

/-- The trace of `swap_step`: the inherited trace, then the swap submission,
then possibly its wait — never an approval operation of its own. -/
theorem swap_step_trace_shape (ft tt am : String) (slip : Int)
    (tr0 : List RemoteCall) (env : CdpEnv) :
    ∃ rest, (swap_step ft tt am slip tr0 env).1 =
      tr0 ++ RemoteCall.swapOp ft tt am slip :: rest ∧
      ∀ (t sp : String) (al : Int), RemoteCall.approvalOp t sp al ∉
        RemoteCall.swapOp ft tt am slip :: rest := by
  unfold swap_step
  cases hss : env.smart_swap with
  | error e => exact ⟨[], by simp, by simp⟩
  | ok ss =>
    cases hsw : env.smart_wait with
    | error m => exact ⟨[RemoteCall.waitOp ss.user_op_hash], by simp, by simp⟩
    | ok rc => exact ⟨[RemoteCall.waitOp ss.user_op_hash], by simp, by simp⟩

/-! ## Claim theorems -/

/-- C1: for every dispatch that passes action-name and wallet-existence
validation, exactly one transaction record is created — appended with status
`pending` before the handler starts (witnessed by the event order: the
ledger-append event precedes the handler-start event, which precedes all
remote operations) — and that record reaches exactly one terminal state
(witnessed by the single ledger-update event): `success` with the handler's
result stored when the handler returns, `failed` with the error message
stored when it raises.  All pre-existing records are untouched. -/
theorem c1_dispatch_single_record_lifecycle
    (db : DB) (room_id action : String) (params : ActionParams) (env : CdpEnv)
    (hact : action ∈ supported_actions)
    (hw : (get_wallet db room_id).isSome)
    (hfresh : ∀ r ∈ db.transactions, r.id ≠ db.nextTxId) :
    ∃ row : TxRecord,
      (dynamic_action_endpoint db room_id action params env).1.transactions =
        row :: db.transactions ∧
      row.id = db.nextTxId ∧ row.room_id = room_id ∧ row.action = action ∧
      row.params = params ∧
      (dynamic_action_endpoint db room_id action params env).2.1 =
        Event.ledgerAppend db.nextTxId "pending" :: Event.handlerStart ::
          ((execute_action (log_transaction db room_id action params).1
              room_id action params env).1.map Event.remote ++
           [Event.ledgerUpdate db.nextTxId row.status]) ∧
      ((∃ r, (execute_action (log_transaction db room_id action params).1
                room_id action params env).2 = .ok r ∧
          row.status = "success" ∧ row.result = some r ∧ row.error = none) ∨
       (∃ e, (execute_action (log_transaction db room_id action params).1
                room_id action params env).2 = .error e ∧
          row.status = "failed" ∧ row.error = some e.detail ∧
          row.result = none)) := by
  obtain ⟨w, hw'⟩ := Option.isSome_iff_exists.mp hw
  rcases hx : execute_action (log_transaction db room_id action params).1
      room_id action params env with ⟨tr, res⟩
  cases res with
  | ok r =>
    refine ⟨{ id := db.nextTxId, room_id := room_id, action := action
              params := params, status := "success", result := some r
              error := none }, ?_, rfl, rfl, rfl, rfl, ?_,
            Or.inl ⟨r, rfl, rfl, rfl, rfl⟩⟩
    · rw [dispatch_success_eq db room_id action params env w tr r hact hw' hx]
      simpa using update_after_log_transactions db room_id action params
        "success" (some r) none hfresh
    · rw [dispatch_success_eq db room_id action params env w tr r hact hw' hx]
  | error e =>
    refine ⟨{ id := db.nextTxId, room_id := room_id, action := action
              params := params, status := "failed", result := none
              error := some e.detail }, ?_, rfl, rfl, rfl, rfl, ?_,
            Or.inr ⟨e, rfl, rfl, rfl, rfl⟩⟩
    · rw [dispatch_failure_eq db room_id action params env w tr e hact hw' hx]
      simpa using update_after_log_transactions db room_id action params
        "failed" none (some e.detail) hfresh
    · rw [dispatch_failure_eq db room_id action params env w tr e hact hw' hx]

/-- C1 witness: a concrete `balance` dispatch against a stored wallet (the
wallet service is never consulted by this action). -/
theorem c1_dispatch_single_record_witness :
    ∃ row : TxRecord,
      (dynamic_action_endpoint
        { wallets := [{ room_id := "r1", owner_account_name := some "r1"
                        account_name := some "r1", address := some "0xO"
                        smart_account_address := some "0xS"
                        network := some "base" }]
          transactions := [], nextTxId := 0 } "r1" "balance" {}
        ⟨.ok (), .error "x", .error "x", .error "x", .error "x",
         .error "x"⟩).1.transactions = row :: [] ∧
      row.id = 0 ∧ row.room_id = "r1" ∧ row.action = "balance" ∧
      row.params = {} ∧
      (dynamic_action_endpoint
        { wallets := [{ room_id := "r1", owner_account_name := some "r1"
                        account_name := some "r1", address := some "0xO"
                        smart_account_address := some "0xS"
                        network := some "base" }]
          transactions := [], nextTxId := 0 } "r1" "balance" {}
        ⟨.ok (), .error "x", .error "x", .error "x", .error "x",
         .error "x"⟩).2.1 =
        Event.ledgerAppend 0 "pending" :: Event.handlerStart ::
          ((execute_action (log_transaction
              { wallets := [{ room_id := "r1", owner_account_name := some "r1"
                              account_name := some "r1", address := some "0xO"
                              smart_account_address := some "0xS"
                              network := some "base" }]
                transactions := [], nextTxId := 0 } "r1" "balance" {}).1
              "r1" "balance" {}
              ⟨.ok (), .error "x", .error "x", .error "x", .error "x",
               .error "x"⟩).1.map Event.remote ++
           [Event.ledgerUpdate 0 row.status]) ∧
      ((∃ r, (execute_action (log_transaction
              { wallets := [{ room_id := "r1", owner_account_name := some "r1"
                              account_name := some "r1", address := some "0xO"
                              smart_account_address := some "0xS"
                              network := some "base" }]
                transactions := [], nextTxId := 0 } "r1" "balance" {}).1
              "r1" "balance" {}
              ⟨.ok (), .error "x", .error "x", .error "x", .error "x",
               .error "x"⟩).2 = .ok r ∧
          row.status = "success" ∧ row.result = some r ∧ row.error = none) ∨
       (∃ e, (execute_action (log_transaction
              { wallets := [{ room_id := "r1", owner_account_name := some "r1"
                              account_name := some "r1", address := some "0xO"
                              smart_account_address := some "0xS"
                              network := some "base" }]
                transactions := [], nextTxId := 0 } "r1" "balance" {}).1
              "r1" "balance" {}
              ⟨.ok (), .error "x", .error "x", .error "x", .error "x",
               .error "x"⟩).2 = .error e ∧
          row.status = "failed" ∧ row.error = some e.detail ∧
          row.result = none)) := by
  have h := c1_dispatch_single_record_lifecycle
    { wallets := [{ room_id := "r1", owner_account_name := some "r1"
                    account_name := some "r1", address := some "0xO"
                    smart_account_address := some "0xS"
                    network := some "base" }]
      transactions := [], nextTxId := 0 } "r1" "balance" {}
    ⟨.ok (), .error "x", .error "x", .error "x", .error "x", .error "x"⟩
    (by decide) (by decide) (by simp)
  exact h

/-- C2: for a transfer or swap dispatch where the wallet service accepts the
submission but the confirmation wait raises, the handler returns a partial
result — operation hash present (a non-null string field), transaction hash
null — and the transaction record is nonetheless finalized `success` with
that partial result stored. -/
theorem c2_confirm_failure_partial_result_success :
    (∀ (db : DB) (room_id : String) (params : ActionParams) (env : CdpEnv)
        (w : WalletRow) (ta am : String) (v : Int) (uo : UserOp),
      get_wallet db room_id = some w →
      params.to_address = some ta → ta ≠ "" →
      params.amount = some am → am ≠ "" →
      pyTruthy (pyOr w.owner_account_name w.account_name) = true →
      env.get_or_create_account = .ok () →
      (∃ sa, env.get_or_create_smart_account = .ok sa) →
      toWeiEther am = some v →
      env.send_user_operation = .ok uo →
      (∃ m, env.wait_for_user_operation = .error m) →
      (∀ r ∈ db.transactions, r.id ≠ db.nextTxId) →
      (dynamic_action_endpoint db room_id "transfer" params env).2.2 =
        .ok { success := true, action := "transfer", room_id := room_id
              transaction_id := db.nextTxId
              result := some (.transferRes uo.user_op_hash none uo.status none)
              error := none } ∧
      (dynamic_action_endpoint db room_id "transfer" params env).1.transactions =
        { id := db.nextTxId, room_id := room_id, action := "transfer"
          params := params, status := "success"
          result := some (.transferRes uo.user_op_hash none uo.status none)
          error := none } :: db.transactions) ∧
    (∀ (db : DB) (room_id : String) (params : ActionParams) (env : CdpEnv)
        (w : WalletRow) (ft tt am : String) (ss : SwapSubmit),
      get_wallet db room_id = some w →
      params.from_token = some ft → ft ≠ "" →
      params.to_token = some tt → tt ≠ "" →
      params.amount = some am → am ≠ "" →
      (∃ x, resolve_token_address ft = .ok x) →
      (∃ y, resolve_token_address tt = .ok y) →
      pyTruthy (pyOr w.owner_account_name w.account_name) = true →
      env.get_or_create_account = .ok () →
      (∃ sa, env.get_or_create_smart_account = .ok sa) →
      (strLower ft ∈ nativeTokenSentinels ∨
        (∃ a apOp rc, pythonInt am = some a ∧
          env.send_user_operation = .ok apOp ∧
          env.wait_for_user_operation = .ok rc)) →
      env.smart_swap = .ok ss →
      (∃ m, env.smart_wait = .error m) →
      (∀ r ∈ db.transactions, r.id ≠ db.nextTxId) →
      (dynamic_action_endpoint db room_id "swap" params env).2.2 =
        .ok { success := true, action := "swap", room_id := room_id
              transaction_id := db.nextTxId
              result := some (.swapRes ss.user_op_hash none "pending" ft tt am
                ss.to_amount none)
              error := none } ∧
      (dynamic_action_endpoint db room_id "swap" params env).1.transactions =
        { id := db.nextTxId, room_id := room_id, action := "swap"
          params := params, status := "success"
          result := some (.swapRes ss.user_op_hash none "pending" ft tt am
            ss.to_amount none)
          error := none } :: db.transactions) := by
  constructor
  · intro db room_id params env w ta am v uo hw hta hta2 ham ham2 howner hacc
      hsa hwei hsend hwait hfresh
    have hw1 : get_wallet (log_transaction db room_id "transfer" params).1
        room_id = some w := hw
    have hh := handle_transfer_confirm_failure_eq
      (log_transaction db room_id "transfer" params).1 room_id params env w
      ta am uo v hta hta2 ham ham2 hw1 howner hacc hsa hwei hsend hwait
    have hx : execute_action (log_transaction db room_id "transfer" params).1
        room_id "transfer" params env =
        ([RemoteCall.transferOp ta v, RemoteCall.waitOp uo.user_op_hash],
         .ok (.transferRes uo.user_op_hash none uo.status none)) := by
      simpa [execute_action] using hh
    rw [dispatch_success_eq db room_id "transfer" params env w _ _
      (by decide) hw hx]
    refine ⟨rfl, ?_⟩
    simpa using update_after_log_transactions db room_id "transfer" params
      "success" (some (.transferRes uo.user_op_hash none uo.status none))
      none hfresh
  · intro db room_id params env w ft tt am ss hw hft hft2 htt htt2 ham ham2
      hrf hrt howner hacc hsa hap hswap hwaits hfresh
    have hw1 : get_wallet (log_transaction db room_id "swap" params).1
        room_id = some w := hw
    obtain ⟨tr, hh⟩ := handle_swap_confirm_failure_eq
      (log_transaction db room_id "swap" params).1 room_id params env w
      ft tt am ss hft hft2 htt htt2 ham ham2 hrf hrt hw1 howner hacc hsa hap
      hswap hwaits
    have hx : execute_action (log_transaction db room_id "swap" params).1
        room_id "swap" params env =
        (tr, .ok (.swapRes ss.user_op_hash none "pending" ft tt am
          ss.to_amount none)) := by
      simpa [execute_action] using hh
    rw [dispatch_success_eq db room_id "swap" params env w _ _
      (by decide) hw hx]
    refine ⟨rfl, ?_⟩
    simpa using update_after_log_transactions db room_id "swap" params
      "success" (some (.swapRes ss.user_op_hash none "pending" ft tt am
        ss.to_amount none)) none hfresh

/-- C2 witness: a transfer whose confirmation wait raises (partial result
with null transaction hash, record `success`), and a native-token swap whose
confirmation wait raises (partial result with status `"pending"`, record
`success`). -/
theorem c2_confirm_failure_witness :
    (dynamic_action_endpoint
      { wallets := [{ room_id := "r1", owner_account_name := some "r1"
                      account_name := some "r1", address := some "0xO"
                      smart_account_address := some "0xS"
                      network := some "base" }]
        transactions := [], nextTxId := 0 } "r1" "transfer"
      { to_address := some "0xabc", amount := some "0.01" }
      ⟨.ok (), .ok ⟨"0xS"⟩, .ok ⟨"0xop1", "broadcast"⟩, .error "timeout",
       .ok ⟨"0xop2", some "42"⟩, .error "timeout"⟩).2.2 =
      .ok { success := true, action := "transfer", room_id := "r1"
            transaction_id := 0
            result := some (.transferRes "0xop1" none "broadcast" none)
            error := none } ∧
    (dynamic_action_endpoint
      { wallets := [{ room_id := "r1", owner_account_name := some "r1"
                      account_name := some "r1", address := some "0xO"
                      smart_account_address := some "0xS"
                      network := some "base" }]
        transactions := [], nextTxId := 0 } "r1" "swap"
      { amount := some "5", from_token := some "ETH", to_token := some "DAI" }
      ⟨.ok (), .ok ⟨"0xS"⟩, .ok ⟨"0xop1", "broadcast"⟩, .error "timeout",
       .ok ⟨"0xop2", some "42"⟩, .error "timeout"⟩).2.2 =
      .ok { success := true, action := "swap", room_id := "r1"
            transaction_id := 0
            result := some (.swapRes "0xop2" none "pending" "ETH" "DAI" "5"
              (some "42") none)
            error := none } := by
  constructor
  · exact (c2_confirm_failure_partial_result_success.1
      { wallets := [{ room_id := "r1", owner_account_name := some "r1"
                      account_name := some "r1", address := some "0xO"
                      smart_account_address := some "0xS"
                      network := some "base" }]
        transactions := [], nextTxId := 0 } "r1"
      { to_address := some "0xabc", amount := some "0.01" }
      ⟨.ok (), .ok ⟨"0xS"⟩, .ok ⟨"0xop1", "broadcast"⟩, .error "timeout",
       .ok ⟨"0xop2", some "42"⟩, .error "timeout"⟩
      { room_id := "r1", owner_account_name := some "r1"
        account_name := some "r1", address := some "0xO"
        smart_account_address := some "0xS", network := some "base" }
      "0xabc" "0.01" 10000000000000000 ⟨"0xop1", "broadcast"⟩
      rfl rfl (by decide) rfl (by decide) (by decide) rfl ⟨⟨"0xS"⟩, rfl⟩
      (by decide) rfl ⟨"timeout", rfl⟩ (by simp)).1
  · exact (c2_confirm_failure_partial_result_success.2
      { wallets := [{ room_id := "r1", owner_account_name := some "r1"
                      account_name := some "r1", address := some "0xO"
                      smart_account_address := some "0xS"
                      network := some "base" }]
        transactions := [], nextTxId := 0 } "r1"
      { amount := some "5", from_token := some "ETH", to_token := some "DAI" }
      ⟨.ok (), .ok ⟨"0xS"⟩, .ok ⟨"0xop1", "broadcast"⟩, .error "timeout",
       .ok ⟨"0xop2", some "42"⟩, .error "timeout"⟩
      { room_id := "r1", owner_account_name := some "r1"
        account_name := some "r1", address := some "0xO"
        smart_account_address := some "0xS", network := some "base" }
      "ETH" "DAI" "5" ⟨"0xop2", some "42"⟩
      rfl rfl (by decide) rfl (by decide) rfl (by decide)
      ⟨"0x0000000000000000000000000000000000000000", rfl⟩
      ⟨"0x50c5725949A6F0c72E6C4a641F24049A917DB0Cb", rfl⟩
      (by decide) rfl ⟨⟨"0xS"⟩, rfl⟩ (Or.inl (by decide)) rfl
      ⟨"timeout", rfl⟩ (by simp)).1

/-- C3: a dispatch whose action name is outside {balance, transfer, swap}
fails with 400 and an unchanged datastore and empty event trace (no ledger
write); a dispatch of a supported action against a room with no wallet row
fails with 404, likewise before any ledger write. -/
theorem c3_validation_failures_before_ledger :
    (∀ (db : DB) (room_id action : String) (params : ActionParams) (env : CdpEnv),
      action ∉ supported_actions →
      dynamic_action_endpoint db room_id action params env =
        (db, [], .error ⟨400, invalidActionDetail action⟩)) ∧
    (∀ (db : DB) (room_id action : String) (params : ActionParams) (env : CdpEnv),
      action ∈ supported_actions → get_wallet db room_id = none →
      dynamic_action_endpoint db room_id action params env =
        (db, [], .error ⟨404, "Wallet not found for room_id: " ++ room_id⟩)) := by
  constructor
  · intro db room_id action params env h
    unfold dynamic_action_endpoint
    rw [if_pos h]
  · intro db room_id action params env hact hw
    unfold dynamic_action_endpoint
    rw [if_neg (not_not_intro hact), hw]

/-- C3 witness: invalid action name `"mint"`, then missing wallet for
`"r2"`, on a concrete datastore. -/
theorem c3_validation_failures_witness :
    dynamic_action_endpoint { wallets := [], transactions := [], nextTxId := 0 }
        "r1" "mint" {} ⟨.ok (), .error "x", .error "x", .error "x", .error "x",
          .error "x"⟩ =
      ({ wallets := [], transactions := [], nextTxId := 0 }, [],
       .error ⟨400, invalidActionDetail "mint"⟩) ∧
    dynamic_action_endpoint { wallets := [], transactions := [], nextTxId := 0 }
        "r2" "balance" {} ⟨.ok (), .error "x", .error "x", .error "x", .error "x",
          .error "x"⟩ =
      ({ wallets := [], transactions := [], nextTxId := 0 }, [],
       .error ⟨404, "Wallet not found for room_id: r2"⟩) :=
  ⟨c3_validation_failures_before_ledger.1 _ "r1" "mint" {} _ (by decide),
   c3_validation_failures_before_ledger.2 _ "r2" "balance" {} _ (by decide) rfl⟩

/-- C5: when the raw sell token lowercases to a native-asset sentinel, a
swap dispatch submits no approval operation at all; otherwise, on the path
that reaches the swap submission, exactly one approval operation is
submitted first — granting the Permit2 contract an allowance of
`int(amount) * 10` over the sell-token identifier — and its confirmation is
awaited before the swap operation is submitted. -/
theorem c5_swap_approval_policy :
    (∀ (db : DB) (room_id : String) (params : ActionParams) (env : CdpEnv),
      strLower (params.from_token.getD "") ∈ nativeTokenSentinels →
      ∀ (t sp : String) (al : Int), RemoteCall.approvalOp t sp al ∉
        (handle_swap db room_id params env).1) ∧
    (∀ (db : DB) (room_id : String) (params : ActionParams) (env : CdpEnv)
        (w : WalletRow) (ft tt am : String) (a : Int) (apOp : UserOp)
        (rc : OpReceipt),
      params.from_token = some ft → ft ≠ "" →
      params.to_token = some tt → tt ≠ "" →
      params.amount = some am → am ≠ "" →
      (∃ x, resolve_token_address ft = .ok x) →
      (∃ y, resolve_token_address tt = .ok y) →
      get_wallet db room_id = some w →
      pyTruthy (pyOr w.owner_account_name w.account_name) = true →
      env.get_or_create_account = .ok () →
      (∃ sa, env.get_or_create_smart_account = .ok sa) →
      strLower ft ∉ nativeTokenSentinels →
      pythonInt am = some a →
      env.send_user_operation = .ok apOp →
      env.wait_for_user_operation = .ok rc →
      ∃ rest, (handle_swap db room_id params env).1 =
        RemoteCall.approvalOp ft permit2_address (a * 10) ::
        RemoteCall.waitOp apOp.user_op_hash ::
        RemoteCall.swapOp ft tt am (params.slippage_bps.getD 100) :: rest ∧
        ∀ (t sp : String) (al : Int), RemoteCall.approvalOp t sp al ∉
          RemoteCall.waitOp apOp.user_op_hash ::
          RemoteCall.swapOp ft tt am (params.slippage_bps.getD 100) ::
          rest) := by
  constructor
  · intro db room_id params env hN t sp al
    unfold handle_swap
    repeat' ((try dsimp only); split)
    all_goals first
      | simp
      | (exact absurd hN (by assumption))
      | (exact swap_step_no_approval _ _ _ _ env t sp al)
  · intro db room_id params env w ft tt am a apOp rc hft hft2 htt htt2 ham
      ham2 hrf hrt hw howner hacc hsa hn hint hsend hwaitA
    obtain ⟨x, hrf⟩ := hrf
    obtain ⟨y, hrt⟩ := hrt
    obtain ⟨sa, hsa⟩ := hsa
    have hft3 : pyTruthy (some ft) = true := by simp [pyTruthy, hft2]
    have htt3 : pyTruthy (some tt) = true := by simp [pyTruthy, htt2]
    have ham3 : pyTruthy (some am) = true := by simp [pyTruthy, ham2]
    have hmain : handle_swap db room_id params env =
        swap_step ft tt am (params.slippage_bps.getD 100)
          [RemoteCall.approvalOp ft permit2_address (a * 10),
           RemoteCall.waitOp apOp.user_op_hash] env := by
      unfold handle_swap
      rw [hft, htt, ham]
      simp [hft3, htt3, ham3, hrf, hrt, hw, howner, hacc, hsa, hn, hint,
        hsend, hwaitA]
    obtain ⟨rest, htr, hnomem⟩ := swap_step_trace_shape ft tt am
      (params.slippage_bps.getD 100)
      [RemoteCall.approvalOp ft permit2_address (a * 10),
       RemoteCall.waitOp apOp.user_op_hash] env
    refine ⟨rest, ?_, ?_⟩
    · rw [hmain]
      exact htr
    · intro t sp al hmem
      rcases List.mem_cons.mp hmem with h1 | h2
      · exact absurd h1 (by simp)
      · exact hnomem t sp al h2

/-- C5 witness: a native-sentinel swap (`from_token = "ETH"`) submits no
approval (instantiated at a representative approval triple), and a USDC
swap's trace starts with exactly the approval of `5 * 10` for Permit2, its
wait, then the swap submission. -/
theorem c5_swap_approval_policy_witness :
    (RemoteCall.approvalOp "USDC" permit2_address 50 ∉
      (handle_swap
        { wallets := [{ room_id := "r1", owner_account_name := some "r1"
                        account_name := some "r1", address := some "0xO"
                        smart_account_address := some "0xS"
                        network := some "base" }]
          transactions := [], nextTxId := 0 } "r1"
        { amount := some "5", from_token := some "ETH"
          to_token := some "DAI" }
        ⟨.ok (), .ok ⟨"0xS"⟩, .ok ⟨"0xop1", "broadcast"⟩,
         .ok ⟨"complete", some "0xt1"⟩, .ok ⟨"0xop2", some "42"⟩,
         .ok ⟨"complete", some "0xt2"⟩⟩).1) ∧
    (∃ rest, (handle_swap
        { wallets := [{ room_id := "r1", owner_account_name := some "r1"
                        account_name := some "r1", address := some "0xO"
                        smart_account_address := some "0xS"
                        network := some "base" }]
          transactions := [], nextTxId := 0 } "r1"
        { amount := some "5", from_token := some "USDC"
          to_token := some "DAI" }
        ⟨.ok (), .ok ⟨"0xS"⟩, .ok ⟨"0xop1", "broadcast"⟩,
         .ok ⟨"complete", some "0xt1"⟩, .ok ⟨"0xop2", some "42"⟩,
         .ok ⟨"complete", some "0xt2"⟩⟩).1 =
        RemoteCall.approvalOp "USDC" permit2_address (5 * 10) ::
        RemoteCall.waitOp "0xop1" ::
        RemoteCall.swapOp "USDC" "DAI" "5" 100 :: rest ∧
        ∀ (t sp : String) (al : Int), RemoteCall.approvalOp t sp al ∉
          RemoteCall.waitOp "0xop1" ::
          RemoteCall.swapOp "USDC" "DAI" "5" 100 :: rest) :=
  ⟨c5_swap_approval_policy.1
    { wallets := [{ room_id := "r1", owner_account_name := some "r1"
                    account_name := some "r1", address := some "0xO"
                    smart_account_address := some "0xS"
                    network := some "base" }]
      transactions := [], nextTxId := 0 } "r1"
    { amount := some "5", from_token := some "ETH", to_token := some "DAI" }
    ⟨.ok (), .ok ⟨"0xS"⟩, .ok ⟨"0xop1", "broadcast"⟩,
     .ok ⟨"complete", some "0xt1"⟩, .ok ⟨"0xop2", some "42"⟩,
     .ok ⟨"complete", some "0xt2"⟩⟩
    (by decide) "USDC" permit2_address 50,
   c5_swap_approval_policy.2
    { wallets := [{ room_id := "r1", owner_account_name := some "r1"
                    account_name := some "r1", address := some "0xO"
                    smart_account_address := some "0xS"
                    network := some "base" }]
      transactions := [], nextTxId := 0 } "r1"
    { amount := some "5", from_token := some "USDC", to_token := some "DAI" }
    ⟨.ok (), .ok ⟨"0xS"⟩, .ok ⟨"0xop1", "broadcast"⟩,
     .ok ⟨"complete", some "0xt1"⟩, .ok ⟨"0xop2", some "42"⟩,
     .ok ⟨"complete", some "0xt2"⟩⟩
    { room_id := "r1", owner_account_name := some "r1"
      account_name := some "r1", address := some "0xO"
      smart_account_address := some "0xS", network := some "base" }
    "USDC" "DAI" "5" 5 ⟨"0xop1", "broadcast"⟩ ⟨"complete", some "0xt1"⟩
    rfl (by decide) rfl (by decide) rfl (by decide)
    ⟨"0x833589fCD6eDb6E08f4c7C32D4f71b54bdA02913", rfl⟩
    ⟨"0x50c5725949A6F0c72E6C4a641F24049A917DB0Cb", rfl⟩
    rfl (by decide) rfl ⟨⟨"0xS"⟩, rfl⟩ (by decide) (by decide) rfl rfl⟩

/-- C6 (divergence witness): in a swap of symbol-named tokens, the resolver
maps `"USDC"`/`"DAI"` to their table addresses and an unknown symbol is
rejected with 400 — but the operations actually submitted to the wallet
service carry the raw identifiers: the approval call's target contract and
the swap's from/to tokens are the strings `"USDC"`/`"DAI"`, not the resolved
contract addresses (the resolved values are computed and never used). -/
theorem c6_swap_submits_unresolved_identifiers :
    (handle_swap
      { wallets := [{ room_id := "r1", owner_account_name := some "r1"
                      account_name := some "r1", address := some "0xO"
                      smart_account_address := some "0xS"
                      network := some "base" }]
        transactions := [], nextTxId := 0 } "r1"
      { amount := some "5", from_token := some "USDC", to_token := some "DAI" }
      ⟨.ok (), .ok ⟨"0xS"⟩, .ok ⟨"0xop1", "broadcast"⟩,
       .ok ⟨"complete", some "0xt1"⟩, .ok ⟨"0xop2", some "42"⟩,
       .ok ⟨"complete", some "0xt2"⟩⟩).1 =
      [RemoteCall.approvalOp "USDC" permit2_address 50,
       RemoteCall.waitOp "0xop1",
       RemoteCall.swapOp "USDC" "DAI" "5" 100,
       RemoteCall.waitOp "0xop2"] ∧
    resolve_token_address "USDC" =
      .ok "0x833589fCD6eDb6E08f4c7C32D4f71b54bdA02913" ∧
    resolve_token_address "DAI" =
      .ok "0x50c5725949A6F0c72E6C4a641F24049A917DB0Cb" ∧
    ("USDC" : String) ≠ "0x833589fCD6eDb6E08f4c7C32D4f71b54bdA02913" ∧
    ("DAI" : String) ≠ "0x50c5725949A6F0c72E6C4a641F24049A917DB0Cb" :=
  ⟨rfl, rfl, rfl, by decide, by decide⟩

/-- C7: whenever the handler of a logged dispatch fails (all handler
failures are `HTTPException`s of the error taxonomy, by the handlers'
catch-alls), the transaction record is finalized `failed` with the error's
detail stored, and the very same error — same status code and detail — is
re-raised to the caller. -/
theorem c7_handler_failure_finalized_and_reraised
    (db : DB) (room_id action : String) (params : ActionParams) (env : CdpEnv)
    (tr : List RemoteCall) (e : HTTPErr)
    (hact : action ∈ supported_actions)
    (hw : (get_wallet db room_id).isSome)
    (hfresh : ∀ r ∈ db.transactions, r.id ≠ db.nextTxId)
    (hx : execute_action (log_transaction db room_id action params).1
        room_id action params env = (tr, .error e)) :
    (dynamic_action_endpoint db room_id action params env).2.2 = .error e ∧
    (dynamic_action_endpoint db room_id action params env).1.transactions =
      { id := db.nextTxId, room_id := room_id, action := action
        params := params, status := "failed", result := none
        error := some e.detail } :: db.transactions := by
  obtain ⟨w, hw'⟩ := Option.isSome_iff_exists.mp hw
  rw [dispatch_failure_eq db room_id action params env w tr e hact hw' hx]
  refine ⟨rfl, ?_⟩
  simpa using update_after_log_transactions db room_id action params
    "failed" none (some e.detail) hfresh

/-- C7 witness: a `transfer` dispatch with no parameters fails in the handler
with 400 "Missing required parameter: to_address"; the record is finalized
`failed` with that detail and the same 400 error is re-raised. -/
theorem c7_handler_failure_witness :
    (dynamic_action_endpoint
      { wallets := [{ room_id := "r1", owner_account_name := some "r1"
                      account_name := some "r1", address := some "0xO"
                      smart_account_address := some "0xS"
                      network := some "base" }]
        transactions := [], nextTxId := 0 } "r1" "transfer" {}
      ⟨.ok (), .error "x", .error "x", .error "x", .error "x",
       .error "x"⟩).2.2 =
      .error ⟨400, "Missing required parameter: to_address"⟩ ∧
    (dynamic_action_endpoint
      { wallets := [{ room_id := "r1", owner_account_name := some "r1"
                      account_name := some "r1", address := some "0xO"
                      smart_account_address := some "0xS"
                      network := some "base" }]
        transactions := [], nextTxId := 0 } "r1" "transfer" {}
      ⟨.ok (), .error "x", .error "x", .error "x", .error "x",
       .error "x"⟩).1.transactions =
      [{ id := 0, room_id := "r1", action := "transfer", params := {}
         status := "failed", result := none
         error := some "Missing required parameter: to_address" }] :=
  c7_handler_failure_finalized_and_reraised
    { wallets := [{ room_id := "r1", owner_account_name := some "r1"
                    account_name := some "r1", address := some "0xO"
                    smart_account_address := some "0xS"
                    network := some "base" }]
      transactions := [], nextTxId := 0 } "r1" "transfer" {}
    ⟨.ok (), .error "x", .error "x", .error "x", .error "x", .error "x"⟩
    [] ⟨400, "Missing required parameter: to_address"⟩
    (by decide) (by decide) (by simp) rfl

/-- C8: a saga run whose text-generation step fails aborts with a 500 and an
empty side-effect trace: no wallet provisioned, no remote agent created, no
room row persisted. -/
theorem c8_saga_generation_failure_no_side_effects
    (env : SagaEnv) (room_id msg : String)
    (h : env.generate_strategy = .error msg) :
    create_room env room_id =
      ([], .error ⟨500, "Failed to generate AI strategy: " ++ msg⟩) := by
  unfold create_room
  rw [h]

/-- C8 witness: a concrete saga environment whose text-generation call fails
(every later step would succeed). -/
theorem c8_saga_generation_failure_witness :
    create_room
      { generate_strategy := .error "model unavailable"
        wallet_create := .ok (some "0xO", some "0xS")
        eliza_create_agent := .ok "agent-1"
        eliza_start_agent := .ok ()
        eliza_create_room := .ok "eliza-room-1"
        insert_room := .ok (), insert_agent := .ok () } "room-1" =
      ([], .error ⟨500, "Failed to generate AI strategy: model unavailable"⟩) :=
  c8_saga_generation_failure_no_side_effects _ "room-1" "model unavailable" rfl

/-- C9: a swap of a non-native sell token whose amount is a decimal string
containing a fractional point (not a Python integer literal) always fails at
the approval step with a 500: the allowance is computed as `int(amount) * 10`
and the parse raises inside the approval block, so no approval and no swap
operation is submitted (the event trace holds no remote operation) and the
transaction record is finalized `failed`. -/
theorem c9_swap_fractional_amount_approval_internal_error
    (db : DB) (room_id : String) (params : ActionParams) (env : CdpEnv)
    (w : WalletRow) (ft tt am : String)
    (hw : get_wallet db room_id = some w)
    (hft : params.from_token = some ft) (hft2 : ft ≠ "")
    (htt : params.to_token = some tt) (htt2 : tt ≠ "")
    (ham : params.amount = some am) (ham2 : am ≠ "")
    (hdot : '.' ∈ am.data)
    (hrf : ∃ x, resolve_token_address ft = .ok x)
    (hrt : ∃ y, resolve_token_address tt = .ok y)
    (hn : strLower ft ∉ nativeTokenSentinels)
    (howner : pyTruthy (pyOr w.owner_account_name w.account_name) = true)
    (hacc : env.get_or_create_account = .ok ())
    (hsa : ∃ sa, env.get_or_create_smart_account = .ok sa)
    (hfresh : ∀ r ∈ db.transactions, r.id ≠ db.nextTxId) :
    (dynamic_action_endpoint db room_id "swap" params env).2.2 =
      .error ⟨500, "Failed to approve Permit2: " ++ pyIntErrMsg am⟩ ∧
    (dynamic_action_endpoint db room_id "swap" params env).2.1 =
      [Event.ledgerAppend db.nextTxId "pending", Event.handlerStart,
       Event.ledgerUpdate db.nextTxId "failed"] ∧
    (dynamic_action_endpoint db room_id "swap" params env).1.transactions =
      { id := db.nextTxId, room_id := room_id, action := "swap"
        params := params, status := "failed", result := none
        error := some ("Failed to approve Permit2: " ++ pyIntErrMsg am) } ::
        db.transactions := by
  have hint : pythonInt am = none := pythonInt_of_mem_dot am hdot
  have hw1 : get_wallet (log_transaction db room_id "swap" params).1
      room_id = some w := hw
  have hh := handle_swap_int_parse_failure_eq
    (log_transaction db room_id "swap" params).1 room_id params env w
    ft tt am hft hft2 htt htt2 ham ham2 hrf hrt hw1 howner hacc hsa hn hint
  have hx : execute_action (log_transaction db room_id "swap" params).1
      room_id "swap" params env =
      ([], .error ⟨500, "Failed to approve Permit2: " ++ pyIntErrMsg am⟩) := by
    simpa [execute_action] using hh
  rw [dispatch_failure_eq db room_id "swap" params env w []
    ⟨500, "Failed to approve Permit2: " ++ pyIntErrMsg am⟩ (by decide) hw hx]
  refine ⟨rfl, rfl, ?_⟩
  simpa using update_after_log_transactions db room_id "swap" params
    "failed" none (some ("Failed to approve Permit2: " ++ pyIntErrMsg am))
    hfresh

/-- C9 witness: swapping `"0.5"` USDC for DAI against a healthy wallet
service: 500 at the approval step, no remote operation in the trace, record
`failed`. -/
theorem c9_swap_fractional_amount_witness :
    (dynamic_action_endpoint
      { wallets := [{ room_id := "r1", owner_account_name := some "r1"
                      account_name := some "r1", address := some "0xO"
                      smart_account_address := some "0xS"
                      network := some "base" }]
        transactions := [], nextTxId := 0 } "r1" "swap"
      { amount := some "0.5", from_token := some "USDC"
        to_token := some "DAI" }
      ⟨.ok (), .ok ⟨"0xS"⟩, .ok ⟨"0xop1", "broadcast"⟩,
       .ok ⟨"complete", some "0xt1"⟩, .ok ⟨"0xop2", some "42"⟩,
       .ok ⟨"complete", some "0xt2"⟩⟩).2.2 =
      .error ⟨500, "Failed to approve Permit2: " ++ pyIntErrMsg "0.5"⟩ ∧
    (dynamic_action_endpoint
      { wallets := [{ room_id := "r1", owner_account_name := some "r1"
                      account_name := some "r1", address := some "0xO"
                      smart_account_address := some "0xS"
                      network := some "base" }]
        transactions := [], nextTxId := 0 } "r1" "swap"
      { amount := some "0.5", from_token := some "USDC"
        to_token := some "DAI" }
      ⟨.ok (), .ok ⟨"0xS"⟩, .ok ⟨"0xop1", "broadcast"⟩,
       .ok ⟨"complete", some "0xt1"⟩, .ok ⟨"0xop2", some "42"⟩,
       .ok ⟨"complete", some "0xt2"⟩⟩).2.1 =
      [Event.ledgerAppend 0 "pending", Event.handlerStart,
       Event.ledgerUpdate 0 "failed"] ∧
    (dynamic_action_endpoint
      { wallets := [{ room_id := "r1", owner_account_name := some "r1"
                      account_name := some "r1", address := some "0xO"
                      smart_account_address := some "0xS"
                      network := some "base" }]
        transactions := [], nextTxId := 0 } "r1" "swap"
      { amount := some "0.5", from_token := some "USDC"
        to_token := some "DAI" }
      ⟨.ok (), .ok ⟨"0xS"⟩, .ok ⟨"0xop1", "broadcast"⟩,
       .ok ⟨"complete", some "0xt1"⟩, .ok ⟨"0xop2", some "42"⟩,
       .ok ⟨"complete", some "0xt2"⟩⟩).1.transactions =
      [{ id := 0, room_id := "r1", action := "swap"
         params := { amount := some "0.5", from_token := some "USDC"
                     to_token := some "DAI" }
         status := "failed", result := none
         error := some ("Failed to approve Permit2: " ++
           pyIntErrMsg "0.5") }] :=
  c9_swap_fractional_amount_approval_internal_error
    { wallets := [{ room_id := "r1", owner_account_name := some "r1"
                    account_name := some "r1", address := some "0xO"
                    smart_account_address := some "0xS"
                    network := some "base" }]
      transactions := [], nextTxId := 0 } "r1"
    { amount := some "0.5", from_token := some "USDC"
      to_token := some "DAI" }
    ⟨.ok (), .ok ⟨"0xS"⟩, .ok ⟨"0xop1", "broadcast"⟩,
     .ok ⟨"complete", some "0xt1"⟩, .ok ⟨"0xop2", some "42"⟩,
     .ok ⟨"complete", some "0xt2"⟩⟩
    { room_id := "r1", owner_account_name := some "r1"
      account_name := some "r1", address := some "0xO"
      smart_account_address := some "0xS", network := some "base" }
    "USDC" "DAI" "0.5"
    rfl rfl (by decide) rfl (by decide) rfl (by decide) (by decide)
    ⟨"0x833589fCD6eDb6E08f4c7C32D4f71b54bdA02913", rfl⟩
    ⟨"0x50c5725949A6F0c72E6C4a641F24049A917DB0Cb", rfl⟩
    (by decide) (by decide) rfl ⟨⟨"0xS"⟩, rfl⟩ (by simp)

/-- C10: for an existing wallet, the history endpoint clamps a requested
limit above 100 to 100, and reports as total the size of a re-query capped at
10000 rows — equal to the number of matching stored records exactly when at
most 10000 match, and strictly smaller otherwise. -/
theorem c10_history_clamp_and_capped_total
    (db : DB) (room_id : String) (limit offset : Nat) (statusF : Option String)
    (hw : (get_wallet db room_id).isSome) :
    transaction_history_endpoint db room_id limit offset statusF =
      .ok { room_id := room_id
            transactions :=
              ((tx_matching db room_id statusF).drop offset).take (min limit 100)
            total := min (tx_matching db room_id statusF).length 10000
            limit := min limit 100
            offset := offset } ∧
    ((tx_matching db room_id statusF).length ≤ 10000 →
      min (tx_matching db room_id statusF).length 10000 =
        (tx_matching db room_id statusF).length) ∧
    (10000 < (tx_matching db room_id statusF).length →
      min (tx_matching db room_id statusF).length 10000 <
        (tx_matching db room_id statusF).length) := by
  obtain ⟨w, hw'⟩ := Option.isSome_iff_exists.mp hw
  have hmin : (if limit > 100 then 100 else limit) = min limit 100 := by
    rcases Nat.lt_or_ge 100 limit with h | h
    · simp [h, Nat.min_eq_right (Nat.le_of_lt h)]
    · simp [Nat.not_lt_of_ge h, Nat.min_eq_left h]
  have htot : (get_transactions db room_id 10000 0 statusF).length =
      min (tx_matching db room_id statusF).length 10000 := by
    simp [get_transactions, Nat.min_comm]
  refine ⟨?_, fun h => by omega, fun h => by omega⟩
  unfold transaction_history_endpoint
  rw [hw']
  dsimp only
  rw [hmin, htot]
  rfl

/-- C10 witness: a wallet with one logged transaction, queried with limit
150: the response reports limit 100 and total 1. -/
theorem c10_history_clamp_witness :
    transaction_history_endpoint
        { wallets := [{ room_id := "r1", owner_account_name := some "r1"
                        account_name := some "r1", address := some "0xO"
                        smart_account_address := some "0xS"
                        network := some "base" }]
          transactions := [{ id := 0, room_id := "r1", action := "balance"
                             params := {}, status := "success" }]
          nextTxId := 1 } "r1" 150 0 none =
      .ok { room_id := "r1"
            transactions := ((tx_matching
              { wallets := [{ room_id := "r1", owner_account_name := some "r1"
                              account_name := some "r1", address := some "0xO"
                              smart_account_address := some "0xS"
                              network := some "base" }]
                transactions := [{ id := 0, room_id := "r1", action := "balance"
                                   params := {}, status := "success" }]
                nextTxId := 1 } "r1" none).drop 0).take (min 150 100)
            total := min (tx_matching
              { wallets := [{ room_id := "r1", owner_account_name := some "r1"
                              account_name := some "r1", address := some "0xO"
                              smart_account_address := some "0xS"
                              network := some "base" }]
                transactions := [{ id := 0, room_id := "r1", action := "balance"
                                   params := {}, status := "success" }]
                nextTxId := 1 } "r1" none).length 10000
            limit := min 150 100
            offset := 0 } :=
  (c10_history_clamp_and_capped_total _ "r1" 150 0 none (by decide)).1

/-- C4: with no wallet row for the (stripped) room id and a healthy wallet
service, a first provision call persists exactly one row and succeeds; a
second call for the same room id returns 409 Conflict and persists nothing
(the datastore is returned unchanged). -/
theorem c4_provision_twice_single_row_conflict
    (db : DB) (env env2 : ProvisionEnv) (rid oa sa : String)
    (h0 : get_wallet db (pyStrip rid) = none)
    (ha : env.get_or_create_account = .ok oa)
    (hs : env.get_or_create_smart_account = .ok sa) :
    (create_wallet_endpoint db env rid).2 =
      .ok ⟨pyStrip rid, pyStrip rid, oa, sa, "base"⟩ ∧
    ((create_wallet_endpoint db env rid).1.wallets.filter
        (fun w => w.room_id == pyStrip rid)).length = 1 ∧
    create_wallet_endpoint (create_wallet_endpoint db env rid).1 env2 rid =
      ((create_wallet_endpoint db env rid).1,
       .error ⟨409, "Wallet already exists for room_id: " ++ pyStrip rid⟩) := by
  have hfilter : db.wallets.filter (fun w => w.room_id == pyStrip rid) = [] := by
    rw [List.filter_eq_nil_iff]
    intro w hwmem
    exact List.find?_eq_none.mp h0 w hwmem
  have h1 : create_wallet_endpoint db env rid =
      (create_wallet db (pyStrip rid) (pyStrip rid) oa sa "base",
       .ok ⟨pyStrip rid, pyStrip rid, oa, sa, "base"⟩) := by
    unfold create_wallet_endpoint
    rw [if_neg (by rw [h0]; simp), ha, hs]
  have hconf : ∀ (dbX : DB) (envX : ProvisionEnv),
      (get_wallet dbX (pyStrip rid)).isSome →
      create_wallet_endpoint dbX envX rid =
        (dbX, .error ⟨409, "Wallet already exists for room_id: " ++ pyStrip rid⟩) := by
    intro dbX envX hsome
    unfold create_wallet_endpoint
    rw [if_pos hsome]
  refine ⟨by rw [h1], ?_, ?_⟩
  · rw [h1]
    simp [create_wallet, List.filter_append, hfilter]
  · have hfound : get_wallet (create_wallet_endpoint db env rid).1 (pyStrip rid) =
        some { room_id := pyStrip rid, owner_account_name := some (pyStrip rid)
               account_name := some (pyStrip rid), address := some oa
               smart_account_address := some sa, network := some "base" } := by
      rw [h1]
      unfold get_wallet create_wallet
      rw [List.find?_append, List.find?_eq_none.mpr
        (fun w hwmem => List.find?_eq_none.mp h0 w hwmem)]
      simp
    exact hconf _ env2 (by rw [hfound]; rfl)

/-- C4 witness: provisioning `"room-7"` twice on an initially empty
datastore. -/
theorem c4_provision_twice_witness :
    (create_wallet_endpoint { } ⟨.ok "0xO", .ok "0xS"⟩ "room-7").2 =
      .ok ⟨"room-7", "room-7", "0xO", "0xS", "base"⟩ ∧
    ((create_wallet_endpoint { } ⟨.ok "0xO", .ok "0xS"⟩ "room-7").1.wallets.filter
        (fun w => w.room_id == "room-7")).length = 1 ∧
    create_wallet_endpoint
        (create_wallet_endpoint { } ⟨.ok "0xO", .ok "0xS"⟩ "room-7").1
        ⟨.error "down", .error "down"⟩ "room-7" =
      ((create_wallet_endpoint { } ⟨.ok "0xO", .ok "0xS"⟩ "room-7").1,
       .error ⟨409, "Wallet already exists for room_id: room-7"⟩) := by
  have htrim : pyStrip "room-7" = "room-7" := by decide
  have h := c4_provision_twice_single_row_conflict { } ⟨.ok "0xO", .ok "0xS"⟩
    ⟨.error "down", .error "down"⟩ "room-7" "0xO" "0xS" (by rw [htrim]; rfl) rfl rfl
  rw [htrim] at h
  simpa using h

end WalletApi
